import Mathlib

/-!
Shallow embedding of the invite / password-reset token lifecycle of the
ledger-link repository: the PHP backend endpoints (update-password.php,
reset-password.php, forgot-password.php), the Supabase edge functions
(password-reset-request, password-reset-confirm and its admin-API variant)
and the invite issuance/redemption pages (FirmDashboard.handleInvite,
Invite.tsx).  Cryptographic digests (SHA-256, bcrypt) are abstracted as
function parameters; randomly generated values (raw tokens, fresh row ids)
and external call outcomes (SMTP, cross-service HTTP) are passed in as
explicit inputs.  Database tables are lists of rows and each endpoint is a
pure function from request plus state to response plus state.
-/

namespace LedgerLink

/-- HTTP-style response: status code plus the message carried in the JSON
body, as produced by the repository endpoints. -/
structure Resp where
  status : Nat
  body : String
deriving Repr, DecidableEq

/-- PHP empty() on a string: the empty string and the literal string 0 are
both treated as empty. -/
def phpEmpty (s : String) : Bool :=
  s = "" || s = "0"

/-- PHP trim() on a string: whitespace stripped from both ends (modelled
over the character list so that it is kernel-computable). -/
def phpTrim (s : String) : String :=
  String.mk (((s.data.dropWhile Char.isWhitespace).reverse.dropWhile
    Char.isWhitespace).reverse)

/-- Row of the MySQL users table used by the PHP backend. -/
structure MyUser where
  id : Nat
  email : String
  full_name : String
  password_hash : String
deriving Repr, DecidableEq

/-- Row of the MySQL sessions table. -/
structure SessionRow where
  id : Nat
  user_id : Nat
deriving Repr, DecidableEq

/-- Row of the MySQL password_reset_tokens table.  Note: the PHP backend
stores the raw token string itself in the token column (no digest). -/
structure PhpResetRow where
  id : Nat
  user_id : Nat
  token : String
  expires_at : Nat
  used_at : Option Nat
deriving Repr, DecidableEq

/-- State of the MySQL database behind the PHP backend. -/
structure PhpState where
  users : List MyUser
  sessions : List SessionRow
  reset_tokens : List PhpResetRow
deriving Repr, DecidableEq

/-- Embedding of backend/api/auth/update-password.php: internal endpoint
called by the password-reset-confirm edge function.  It checks the internal
key, validates the input, overwrites the stored credential of the user found
by email and deletes every session of that user. -/
def updatePasswordPhp (phpHash : String → String)
    (email password internalKey expectedKey : String)
    (st : PhpState) : Resp × PhpState :=
  if internalKey ≠ expectedKey then (⟨403, "Unauthorized"⟩, st)
  else if phpEmpty (phpTrim email) then (⟨400, "Email is required"⟩, st)
  else if phpEmpty password then (⟨400, "Password is required"⟩, st)
  else if password.length < 6 then
    (⟨400, "Password must be at least 6 characters"⟩, st)
  else
    match st.users.find? (fun u => u.email == phpTrim email) with
    | none => (⟨404, "User not found"⟩, st)
    | some u =>
      let users2 := st.users.map
        (fun v => if v.id == u.id then { v with password_hash := phpHash password } else v)
      let sessions2 := st.sessions.filter (fun s => s.user_id != u.id)
      (⟨200, "Password updated successfully"⟩, ⟨users2, sessions2, st.reset_tokens⟩)

/-- The unified invalid-token message of reset-password.php. -/
def resetMsgInvalid : String := "Invalid or expired reset token"

/-- The SELECT of reset-password.php: first password_reset_tokens row whose
raw token column equals the presented value, unexpired and unused, joined
with its users row. -/
def phpFindValidRow (st : PhpState) (tok : String) (now : Nat) :
    Option (PhpResetRow × MyUser) :=
  match st.reset_tokens.find?
      (fun r => r.token == tok && decide (now < r.expires_at) && r.used_at == none) with
  | none => none
  | some r =>
    match st.users.find? (fun u => u.id == r.user_id) with
    | none => none
    | some u => some (r, u)

/-- Embedding of backend reset-password.php: validates input, looks the raw
token up with the expiry/usage conditions folded into the query, overwrites
the credential, marks the token used and deletes the sessions of the user. -/
def phpResetPassword (phpHash : String → String) (tokenInput password : String)
    (now : Nat) (st : PhpState) : Resp × PhpState :=
  let tok := phpTrim tokenInput
  if phpEmpty tok then (⟨400, "Reset token is required"⟩, st)
  else if phpEmpty password then (⟨400, "New password is required"⟩, st)
  else if password.length < 6 then
    (⟨400, "Password must be at least 6 characters"⟩, st)
  else
    match phpFindValidRow st tok now with
    | none => (⟨400, resetMsgInvalid⟩, st)
    | some (r, _) =>
      let users2 := st.users.map
        (fun v => if v.id == r.user_id then { v with password_hash := phpHash password } else v)
      let tokens2 := st.reset_tokens.map
        (fun x => if x.id == r.id then { x with used_at := some now } else x)
      let sessions2 := st.sessions.filter (fun s => s.user_id != r.user_id)
      (⟨200, "Password has been reset successfully. Please sign in with your new password."⟩,
        ⟨users2, sessions2, tokens2⟩)

/-- JSON body of the PHP forgot-password.php endpoint: flat record of the
keys that may appear, with absent keys modelled as none (the presence or
absence of a key is part of the externally observable response shape). -/
structure PhpIssueResp where
  status : Nat
  success : Bool
  message : String
  error : Option String
  email_sent : Option Bool
  debug_reset_link : Option String
  debug_reset_token : Option String
  debug_email_error : Option String
  expires_at : Option Nat
deriving Repr, DecidableEq

/-- All-absent base response used to build forgot-password.php responses. -/
def phpIssueBase : PhpIssueResp :=
  ⟨200, false, "", none, none, none, none, none, none⟩

/-- The enumeration-resistant message of forgot-password.php. -/
def enumMsg : String :=
  "If an account with that email exists, you will receive a password reset link."

/-- Embedding of backend forgot-password.php (SMTP variant): validates the
email, reports generic success without touching the store when no user
matches, otherwise deletes all prior reset tokens of the user and inserts a
fresh row storing the raw token itself, then reports success with an
email_sent field and, outside production, debug fields carrying the raw
token and link. -/
def phpForgotPassword (validEmail : String → Bool)
    (emailInput origin rawToken : String) (freshId : Nat) (now : Nat)
    (emailSent : Bool) (emailErr : Option String) (isProd : Bool)
    (st : PhpState) : PhpIssueResp × PhpState :=
  let email := phpTrim emailInput
  if phpEmpty email then
    ({ phpIssueBase with status := 400, error := some ("Email is required") }, st)
  else if !(validEmail email) then
    ({ phpIssueBase with status := 400, error := some ("Invalid email format") }, st)
  else
    match st.users.find? (fun u => u.email == email) with
    | none =>
      ({ phpIssueBase with success := true, message := enumMsg }, st)
    | some u =>
      let tokens2 := st.reset_tokens.filter (fun r => r.user_id != u.id)
      let row : PhpResetRow := ⟨freshId, u.id, rawToken, now + 3600, none⟩
      let st2 : PhpState := ⟨st.users, st.sessions, tokens2 ++ [row]⟩
      let base : PhpIssueResp :=
        ⟨200, true, enumMsg, none, some emailSent, none, none, none, none⟩
      let link : String :=
        String.append (String.append origin ("/reset-password?token=")) rawToken
      let resp :=
        if isProd then base
        else
          ⟨200, true, enumMsg, none, some emailSent, some link, some rawToken,
            (if !emailSent then emailErr else none), some (now + 3600)⟩
      (resp, st2)

/-- Row of the Postgres password_reset_tokens table used by the edge
functions: only the SHA-256 digest of the raw token is stored. -/
structure ResetTokenRow where
  id : Nat
  user_id : Nat
  token_hash : String
  expires_at : Nat
  used_at : Option Nat
deriving Repr, DecidableEq

/-- Row of the profiles table. -/
structure ProfileRow where
  id : Nat
  email : String
  full_name : String
deriving Repr, DecidableEq

/-- State seen by the password-reset edge functions that delegate the
credential write to the PHP backend. -/
structure CloudState where
  reset_tokens : List ResetTokenRow
  profiles : List ProfileRow
deriving Repr, DecidableEq

/-- Error bodies of the password-reset-confirm edge function: each failure
cause carries its own distinct message. -/
def confirmNotFoundBody : String := "Invalid or expired reset token"

/-- Body returned by the confirm edge function for an already-used token. -/
def confirmUsedBody : String := "Reset token has already been used"

/-- Body returned by the confirm edge function for an expired token. -/
def confirmExpiredBody : String := "Reset token has expired"

/-- Success body of the confirm edge function. -/
def confirmOkBody : String := "Password has been reset successfully"

/-- Body returned when the cross-service credential update fails. -/
def confirmBackendFailBody : String := "Failed to update password in backend"

/-- Read phase of the password-reset-confirm edge function
(supabase/functions/password-reset-confirm/index.ts): SELECT the row whose
token_hash equals the digest of the presented token, then check used_at,
expiry and the profiles row, without writing anything. -/
def confirmLookup (hashToken : String → String) (tok : String) (now : Nat)
    (st : CloudState) : Except Resp ResetTokenRow :=
  match st.reset_tokens.find? (fun r => r.token_hash == hashToken tok) with
  | none => Except.error ⟨400, confirmNotFoundBody⟩
  | some r =>
    match r.used_at with
    | some _ => Except.error ⟨400, confirmUsedBody⟩
    | none =>
      if r.expires_at < now then Except.error ⟨400, confirmExpiredBody⟩
      else
        match st.profiles.find? (fun p => p.id == r.user_id) with
        | none => Except.error ⟨500, "User not found"⟩
        | some _ => Except.ok r

/-- Write phase of the password-reset-confirm edge function: first the
cross-service credential update (abstracted by backendOk), then an
unconditional UPDATE of used_at on the row found by the read phase.  The
UPDATE carries no used_at IS NULL condition. -/
def confirmCommit (r : ResetTokenRow) (now : Nat) (backendOk : Bool)
    (st : CloudState) : Resp × CloudState :=
  if backendOk then
    (⟨200, confirmOkBody⟩,
      ⟨st.reset_tokens.map
          (fun x => if x.id == r.id then { x with used_at := some now } else x),
        st.profiles⟩)
  else (⟨500, confirmBackendFailBody⟩, st)

/-- Embedding of the password-reset-confirm edge function: input validation,
then the read phase, then the write phase. -/
def passwordResetConfirm (hashToken : String → String)
    (token password : Option String) (now : Nat) (backendOk : Bool)
    (st : CloudState) : Resp × CloudState :=
  match token, password with
  | some t, some p =>
    if t = "" || p = "" then (⟨400, "token and password required"⟩, st)
    else if p.length < 6 then
      (⟨400, "Password must be at least 6 characters"⟩, st)
    else
      match confirmLookup hashToken t now st with
      | Except.error e => (e, st)
      | Except.ok r => confirmCommit r now backendOk st
  | _, _ => (⟨400, "token and password required"⟩, st)

/-- Embedding of the password-reset-request edge function
(supabase/functions/password-reset-request/index.ts): on an unknown email it
returns the generic success response and leaves the store untouched;
otherwise it deletes every reset token of the user, inserts a fresh row
storing only the digest of the raw token (the UNIQUE constraint on
token_hash can still reject the insert), and then attempts SMTP delivery,
whose failure surfaces as a 500 but leaves the inserted token in place. -/
def passwordResetRequest (hashToken : String → String)
    (email origin : Option String) (rawToken : String) (freshId : Nat)
    (now : Nat) (smtpConfigured emailOk : Bool)
    (st : CloudState) : Resp × CloudState :=
  match email, origin with
  | some e, some o =>
    if e = "" || o = "" then (⟨400, "email and origin required"⟩, st)
    else
      match st.profiles.find? (fun p => p.email == e) with
      | none => (⟨200, "success"⟩, st)
      | some profile =>
        let tokens2 := st.reset_tokens.filter (fun r => r.user_id != profile.id)
        if tokens2.any (fun r => r.token_hash == hashToken rawToken) then
          (⟨500, "Failed to create reset token"⟩, ⟨tokens2, st.profiles⟩)
        else
          let row : ResetTokenRow :=
            ⟨freshId, profile.id, hashToken rawToken, now + 3600000, none⟩
          let st2 : CloudState := ⟨tokens2 ++ [row], st.profiles⟩
          if !smtpConfigured then (⟨500, "SMTP configuration incomplete"⟩, st2)
          else if !emailOk then (⟨500, "SMTP error"⟩, st2)
          else (⟨200, "success"⟩, st2)
  | _, _ => (⟨400, "email and origin required"⟩, st)

/-- Row of the auth users store addressed by the admin API in the
src/unnamed/part_006 confirm variant. -/
structure AuthUserRow where
  id : Nat
  password : String
deriving Repr, DecidableEq

/-- Session row of the auth store of the part_006 variant. -/
structure CloudSessionRow where
  id : Nat
  user_id : Nat
deriving Repr, DecidableEq

/-- State seen by the part_006 confirm variant: token store plus auth users
and their sessions. -/
structure CloudAuthState where
  reset_tokens : List ResetTokenRow
  auth_users : List AuthUserRow
  sessions : List CloudSessionRow
deriving Repr, DecidableEq

/-- Embedding of the admin-API variant of the password-reset confirm edge
function (src/unnamed/part_006): after the token checks it overwrites the
credential through the auth admin updateUserById call and then marks the
token used.  The source contains no operation on sessions. -/
def passwordResetConfirmAdmin (hashToken : String → String)
    (token password : Option String) (now : Nat)
    (st : CloudAuthState) : Resp × CloudAuthState :=
  match token, password with
  | some t, some p =>
    if t = "" || p = "" then (⟨400, "token and password required"⟩, st)
    else if p.length < 6 then
      (⟨400, "Password must be at least 6 characters"⟩, st)
    else
      match st.reset_tokens.find? (fun r => r.token_hash == hashToken t) with
      | none => (⟨400, confirmNotFoundBody⟩, st)
      | some r =>
        match r.used_at with
        | some _ => (⟨400, confirmUsedBody⟩, st)
        | none =>
          if r.expires_at < now then (⟨400, confirmExpiredBody⟩, st)
          else
            match st.auth_users.find? (fun u => u.id == r.user_id) with
            | none => (⟨500, "Failed to update password"⟩, st)
            | some _ =>
              let users2 := st.auth_users.map
                (fun v => if v.id == r.user_id then { v with password := p } else v)
              let tokens2 := st.reset_tokens.map
                (fun x => if x.id == r.id then { x with used_at := some now } else x)
              (⟨200, confirmOkBody⟩, ⟨tokens2, users2, st.sessions⟩)
  | _, _ => (⟨400, "token and password required"⟩, st)

/-- Row of the invite_tokens table as inserted by FirmDashboard.handleInvite
(src/unnamed/part_003): the grant payload (firm, email, role) is recorded at
issuance together with the database-generated token value. -/
structure InviteTokenRow where
  id : Nat
  firm_id : String
  email : String
  role : String
  created_by : Nat
  token : String
deriving Repr, DecidableEq

/-- Row of the user_roles table. -/
structure UserRoleRow where
  user_id : Nat
  role : String
deriving Repr, DecidableEq

/-- Row of the firm_accountants table. -/
structure FirmAccountantRow where
  firm_id : String
  accountant_id : Nat
deriving Repr, DecidableEq

/-- Row of the clients table. -/
structure ClientRow where
  firm_id : String
  user_id : Nat
  company_name : Option String
deriving Repr, DecidableEq

/-- Application state touched by the invite flow.  The sessions component is
carried along so that the theorems can speak about session revocation; the
invite pages contain no session-deletion operation. -/
structure AppState where
  invite_tokens : List InviteTokenRow
  user_roles : List UserRoleRow
  firm_accountants : List FirmAccountantRow
  clients : List ClientRow
  sessions : List CloudSessionRow
deriving Repr, DecidableEq

/-- Embedding of FirmDashboard.handleInvite (src/unnamed/part_003): guards
on a logged-in user, a firm and an email, then inserts a fresh invite_tokens
row carrying the issuance payload and returns the invite link built from the
database-generated token.  No prior invite token is deleted or marked
invalid. -/
def handleInvite (origin firmId inviteEmail inviteType : String)
    (userId : Option Nat) (freshId : Nat) (freshToken : String)
    (st : AppState) : Option String × AppState :=
  match userId with
  | none => (none, st)
  | some uid =>
    if firmId = "" || inviteEmail = "" then (none, st)
    else
      let row : InviteTokenRow := ⟨freshId, firmId, inviteEmail, inviteType, uid, freshToken⟩
      (some (String.append origin (String.append ("/invite?token=") freshToken)),
        { st with invite_tokens := st.invite_tokens ++ [row] })

/-- Embedding of the invite redemption page (src/src/pages/Invite.tsx).  The
token query parameter is read but never used; the invite is considered valid
exactly when the role and firm query parameters are present and the role is
accountant or client.  After zod validation and a successful sign-up the
page inserts the user_roles row and the firm relationship row using the
redeemer-supplied role and firm query parameters; the invite_tokens store is
never consulted or updated. -/
def inviteRedeem (validEmail : String → Bool)
    ( _tokenParam roleParam firmIdParam : Option String)
    (email password fullName companyName : String)
    (signUpOk : Bool) (newUserId : Nat)
    (st : AppState) : Bool × AppState :=
  match roleParam, firmIdParam with
  | some role, some firm =>
    if role == "accountant" || role == "client" then
      if !(validEmail email) || password.length < 6 || fullName.length < 2 then
        (false, st)
      else if !signUpOk then (false, st)
      else
        let newRole : UserRoleRow := ⟨newUserId, role⟩
        let st1 := { st with user_roles := st.user_roles ++ [newRole] }
        if role == "accountant" then
          let link : FirmAccountantRow := ⟨firm, newUserId⟩
          (true, { st1 with firm_accountants := st1.firm_accountants ++ [link] })
        else
          let link : ClientRow :=
            ⟨firm, newUserId, if companyName = "" then none else some companyName⟩
          (true, { st1 with clients := st1.clients ++ [link] })
    else (false, st)
  | _, _ => (false, st)

/-- Concrete digest instance used in closed evaluations (the handlers only
ever compare digest values for equality, so any function is admissible as
the digest parameter). -/
def idDigest : String → String := fun s => s

/-- Concrete state for the non-atomic consume race: one unused, unexpired
token row and its profile. -/
def c3State : CloudState := ⟨[⟨1, 1, "T", 10, none⟩], [⟨1, "u@x", "U"⟩]⟩

/-- The single token row of c3State. -/
def c3Row : ResetTokenRow := ⟨1, 1, "T", 10, none⟩

/-- C1: the firm relationship created by invite redemption is bound to the
redeemer-supplied firm query parameter, not to the firm recorded in the
invite token payload.  With the invite token issued for firm F1 and role
client, a redemption supplying firm F2 in the query string succeeds and
creates the clients row bound to F2, while the invite token store is never
consulted or updated. -/
theorem c1_invite_binds_redeemer_supplied_firm :
    inviteRedeem (fun _ => true) (some ("T")) (some ("client")) (some ("F2"))
        "invitee@x" "secret1" "Jane Doe" "" true 7
        ⟨[⟨1, "F1", "invitee@x", "client", 9, "T"⟩], [], [], [], []⟩ =
      (true, ⟨[⟨1, "F1", "invitee@x", "client", 9, "T"⟩],
        [⟨7, "client"⟩], [], [⟨"F2", 7, none⟩], []⟩) ∧ ("F2" : String) ≠ "F1" := by
  exact ⟨rfl, by decide⟩

/-- C3: the consume step of the confirm edge function is a separate
read-then-write pair, not one atomic conditional update.  Under the
interleaving in which two redemptions of the same raw token both run the
read phase (confirmLookup) before either runs the write phase
(confirmCommit), both return HTTP 200, so the exactly-one-winner property
fails.  The last conjunct records that the sequential handler is exactly the
read phase followed by the write phase. -/
theorem c3_nonatomic_consume_two_winners :
    confirmLookup idDigest ("T") 5 c3State = Except.ok c3Row ∧
    (confirmCommit c3Row 5 true c3State).1.status = 200 ∧
    (confirmCommit c3Row 5 true (confirmCommit c3Row 5 true c3State).2).1.status = 200 ∧
    passwordResetConfirm idDigest (some ("T")) (some ("hunter2x")) 5 true c3State =
      confirmCommit c3Row 5 true c3State :=
  ⟨rfl, rfl, rfl, rfl⟩

/-- C4: evaluating the confirm edge function at a state holding a valid
unconsumed token, with the cross-service credential update failing, shows
the side effect is attempted before the token is marked consumed: the
response is the distinct 500 error and the returned state still has used_at
null, so the token is not spent, contradicting the claim that after a
side-effect failure consumedAt stays set. -/
theorem c4_side_effect_failure_leaves_token_unspent :
    passwordResetConfirm idDigest (some ("T")) (some ("hunter2x")) 5 false
        ⟨[⟨1, 1, "T", 10, none⟩], [⟨1, "u@x", "U"⟩]⟩ =
      (⟨500, confirmBackendFailBody⟩,
        ⟨[⟨1, 1, "T", 10, none⟩], [⟨1, "u@x", "U"⟩]⟩) := rfl

/-- C5: the confirm edge function does not unify its failure causes: token
not found, token already used and token expired produce three pairwise
distinct response bodies, so a caller can distinguish which condition
failed. -/
theorem c5_edge_errors_distinguishable :
    (passwordResetConfirm idDigest (some ("T")) (some ("hunter2x")) 5 true
        ⟨[], []⟩).1 = ⟨400, confirmNotFoundBody⟩ ∧
    (passwordResetConfirm idDigest (some ("T")) (some ("hunter2x")) 5 true
        ⟨[⟨1, 1, "T", 10, some 1⟩], [⟨1, "u@x", "U"⟩]⟩).1 = ⟨400, confirmUsedBody⟩ ∧
    (passwordResetConfirm idDigest (some ("T")) (some ("hunter2x")) 5 true
        ⟨[⟨1, 1, "T", 3, none⟩], [⟨1, "u@x", "U"⟩]⟩).1 = ⟨400, confirmExpiredBody⟩ ∧
    confirmNotFoundBody ≠ confirmUsedBody ∧
    confirmNotFoundBody ≠ confirmExpiredBody ∧
    confirmUsedBody ≠ confirmExpiredBody :=
  ⟨rfl, rfl, rfl, by decide, by decide, by decide⟩

/-- C6: the PHP issuance endpoint persists the raw secret itself: after a
forgot-password run for an existing user, the stored password_reset_tokens
row holds the raw token value in its token column, not a digest of it. -/
theorem c6_php_persists_raw_secret :
    ((phpForgotPassword (fun _ => true) "u@x" "https://app" "RAWSECRET" 2 100
        true none false ⟨[⟨1, "u@x", "U", "old"⟩], [], []⟩).2).reset_tokens =
      [⟨2, 1, "RAWSECRET", 3700, none⟩] := rfl

/-- C7: invite issuance does not invalidate prior tokens: issuing a second
invite token for the same email, firm and role leaves the earlier,
still-active invite token in the store. -/
theorem c7_invite_issuance_keeps_prior_tokens :
    (handleInvite ("https://app") "F1" "e@x" "client" (some 9) 2 ("T2")
        ⟨[⟨1, "F1", "e@x", "client", 9, "T1"⟩], [], [], [], []⟩).2.invite_tokens =
      [⟨1, "F1", "e@x", "client", 9, "T1"⟩, ⟨2, "F1", "e@x", "client", 9, "T2"⟩] := rfl

/-- C8: the PHP issuance responses for an existing and a non-existent email
are distinguishable even in production: both report success, but only the
existing-email response carries the email_sent key. -/
theorem c8_php_shapes_distinguishable :
    ((phpForgotPassword (fun _ => true) "u@x" "https://app" "R" 2 100 true none
        true ⟨[⟨1, "u@x", "U", "old"⟩], [], []⟩).1).email_sent = some true ∧
    ((phpForgotPassword (fun _ => true) "ghost@x" "https://app" "R" 2 100 true none
        true ⟨[⟨1, "u@x", "U", "old"⟩], [], []⟩).1).email_sent = none ∧
    ((phpForgotPassword (fun _ => true) "u@x" "https://app" "R" 2 100 true none
        true ⟨[⟨1, "u@x", "U", "old"⟩], [], []⟩).1).success = true ∧
    ((phpForgotPassword (fun _ => true) "ghost@x" "https://app" "R" 2 100 true none
        true ⟨[⟨1, "u@x", "U", "old"⟩], [], []⟩).1).success = true :=
  ⟨rfl, rfl, rfl, rfl⟩

/-- C9: the admin-API confirm variant performs a successful password-reset
redemption without invoking any session revocation: the subject enters with
one standing session and leaves with the same session still valid. -/
theorem c9_admin_variant_keeps_sessions :
    passwordResetConfirmAdmin idDigest (some ("T")) (some ("hunter2x")) 5
        ⟨[⟨1, 1, "T", 10, none⟩], [⟨1, "old"⟩], [⟨5, 1⟩]⟩ =
      (⟨200, confirmOkBody⟩,
        ⟨[⟨1, 1, "T", 10, some 5⟩], [⟨1, "hunter2x"⟩], [⟨5, 1⟩]⟩) := rfl

/-- C10: a redemption request whose new password is shorter than 6
characters is rejected with HTTP 400 by both redeem endpoints before any
token lookup or consumption: the returned state is unchanged, and the
response does not depend on the stored state at all, so the same token can
still be redeemed later exactly as if the rejected attempt had never
happened. -/
theorem c10_short_password_rejected_early
    (hashToken phpHash : String → String) (t p : String) (now : Nat)
    (backendOk : Bool) (st st2 : CloudState) (pst pst2 : PhpState)
    (hp : p.length < 6) :
    (passwordResetConfirm hashToken (some t) (some p) now backendOk st).1.status = 400 ∧
    (passwordResetConfirm hashToken (some t) (some p) now backendOk st).2 = st ∧
    (passwordResetConfirm hashToken (some t) (some p) now backendOk st).1 =
      (passwordResetConfirm hashToken (some t) (some p) now backendOk st2).1 ∧
    (phpResetPassword phpHash t p now pst).1.status = 400 ∧
    (phpResetPassword phpHash t p now pst).2 = pst ∧
    (phpResetPassword phpHash t p now pst).1 =
      (phpResetPassword phpHash t p now pst2).1 := by
  have hsup : ∀ s : CloudState,
      (passwordResetConfirm hashToken (some t) (some p) now backendOk s).1.status = 400 ∧
      (passwordResetConfirm hashToken (some t) (some p) now backendOk s).2 = s := by
    intro s
    by_cases ht : t = "" <;> by_cases hpe : p = "" <;>
      simp [passwordResetConfirm, ht, hpe, hp]
  have hsup2 : (passwordResetConfirm hashToken (some t) (some p) now backendOk st).1 =
      (passwordResetConfirm hashToken (some t) (some p) now backendOk st2).1 := by
    by_cases ht : t = "" <;> by_cases hpe : p = "" <;>
      simp [passwordResetConfirm, ht, hpe, hp]
  have hphp : ∀ s : PhpState,
      (phpResetPassword phpHash t p now s).1.status = 400 ∧
      (phpResetPassword phpHash t p now s).2 = s := by
    intro s
    by_cases h1 : phpEmpty (phpTrim t) = true <;> by_cases h2 : phpEmpty p = true <;>
      simp [phpResetPassword, h1, h2, hp]
  have hphp2 : (phpResetPassword phpHash t p now pst).1 =
      (phpResetPassword phpHash t p now pst2).1 := by
    by_cases h1 : phpEmpty (phpTrim t) = true <;> by_cases h2 : phpEmpty p = true <;>
      simp [phpResetPassword, h1, h2, hp]
  exact ⟨(hsup st).1, (hsup st).2, hsup2, (hphp pst).1, (hphp pst).2, hphp2⟩

/-- Witness for C10 at a concrete five-character password and a state
holding a live token: the attempt is rejected and the token store is
untouched. -/
theorem c10_short_password_rejected_early_witness :
    ("abcde" : String).length < 6 ∧
    (passwordResetConfirm idDigest (some ("T")) (some ("abcde")) 0 true
        ⟨[⟨1, 1, "T", 9, none⟩], [⟨1, "u@x", "U"⟩]⟩).2 =
      ⟨[⟨1, 1, "T", 9, none⟩], [⟨1, "u@x", "U"⟩]⟩ :=
  ⟨by decide,
    (c10_short_password_rejected_early idDigest idDigest ("T") "abcde" 0 true
      ⟨[⟨1, 1, "T", 9, none⟩], [⟨1, "u@x", "U"⟩]⟩ ⟨[], []⟩ ⟨[], [], []⟩ ⟨[], [], []⟩
      (by decide)).2.1⟩

/-- Specification of a successful reset-password.php lookup: the returned
row is a stored row matching the presented raw value, unexpired and
unused. -/
theorem phpFindValidRow_spec (st : PhpState) (tok : String) (now : Nat)
    (r : PhpResetRow) (u : MyUser)
    (h : phpFindValidRow st tok now = some (r, u)) :
    r ∈ st.reset_tokens ∧ r.token = tok ∧ now < r.expires_at ∧ r.used_at = none := by
  unfold phpFindValidRow at h
  split at h
  · exact absurd h (by simp)
  · rename_i r0 hA
    split at h
    · exact absurd h (by simp)
    · rename_i u0 hB
      simp only [Option.some.injEq, Prod.mk.injEq] at h
      obtain ⟨hr, _⟩ := h
      subst hr
      have hmem := List.mem_of_find?_eq_some hA
      have hpred := List.find?_some hA
      simp only [Bool.and_eq_true, beq_iff_eq, decide_eq_true_eq] at hpred
      exact ⟨hmem, hpred.1.1, hpred.1.2, hpred.2⟩

/-- When the SQL lookup of reset-password.php matches no row, the endpoint
answers with the unified InvalidToken response and leaves the state
unchanged. -/
theorem phpResetPassword_invalid_of_find_none
    (phpHash : String → String) (tokenInput pw : String) (now : Nat) (st : PhpState)
    (h1 : phpEmpty (phpTrim tokenInput) = false)
    (h2 : phpEmpty pw = false) (h3 : ¬ pw.length < 6)
    (hfind : phpFindValidRow st (phpTrim tokenInput) now = none) :
    phpResetPassword phpHash tokenInput pw now st = (⟨400, resetMsgInvalid⟩, st) := by
  simp [phpResetPassword, h1, h2, h3, hfind]

/-- C2: at most one redemption of a raw token succeeds on the PHP redeem
endpoint.  If a redemption of the raw value returns the 200 success (which
marks the token used), then any subsequent well-formed redemption
presenting the same raw value fails with the unified InvalidToken response
and returns the state unchanged, so neither the stored token nor the
credential of the subject is modified.  The uniqueness hypothesis mirrors
the globally-unique-digest invariant of the token store. -/
theorem c2_redeem_single_use
    (phpHash : String → String) (tokenInput pw pw2 : String) (now now2 : Nat)
    (st : PhpState) (r : PhpResetRow) (u : MyUser)
    (huniq : ∀ x ∈ st.reset_tokens, ∀ y ∈ st.reset_tokens,
      x.token = y.token → x.id = y.id)
    (h1f : phpEmpty (phpTrim tokenInput) = false)
    (h2f : phpEmpty pw = false) (h3 : ¬ pw.length < 6)
    (hpw2a : phpEmpty pw2 = false) (hpw2b : ¬ pw2.length < 6)
    (hfind : phpFindValidRow st (phpTrim tokenInput) now = some (r, u)) :
    (phpResetPassword phpHash tokenInput pw now st).1.status = 200 ∧
    phpResetPassword phpHash tokenInput pw2 now2
        (phpResetPassword phpHash tokenInput pw now st).2 =
      (⟨400, resetMsgInvalid⟩, (phpResetPassword phpHash tokenInput pw now st).2) := by
  obtain ⟨hmem, htok, _, _⟩ := phpFindValidRow_spec st (phpTrim tokenInput) now r u hfind
  have hst2 : (phpResetPassword phpHash tokenInput pw now st).2 =
      ⟨st.users.map (fun v => if v.id == r.user_id
          then { v with password_hash := phpHash pw } else v),
        st.sessions.filter (fun s => s.user_id != r.user_id),
        st.reset_tokens.map (fun x => if x.id == r.id
          then { x with used_at := some now } else x)⟩ := by
    simp [phpResetPassword, h1f, h2f, h3, hfind]
  have hok : (phpResetPassword phpHash tokenInput pw now st).1.status = 200 := by
    simp [phpResetPassword, h1f, h2f, h3, hfind]
  have hnone : phpFindValidRow
      ⟨st.users.map (fun v => if v.id == r.user_id
          then { v with password_hash := phpHash pw } else v),
        st.sessions.filter (fun s => s.user_id != r.user_id),
        st.reset_tokens.map (fun x => if x.id == r.id
          then { x with used_at := some now } else x)⟩
      (phpTrim tokenInput) now2 = none := by
    unfold phpFindValidRow
    have hfn : (st.reset_tokens.map (fun x => if x.id == r.id
        then { x with used_at := some now } else x)).find?
        (fun x => x.token == phpTrim tokenInput &&
          decide (now2 < x.expires_at) && x.used_at == none) = none := by
      rw [List.find?_eq_none]
      intro x hx
      rw [List.mem_map] at hx
      obtain ⟨y, hy, hfy⟩ := hx
      by_cases hid : (y.id == r.id) = true
      · subst hfy
        simp [hid]
      · have hid2 : ¬ ((y.id == r.id) = true) := hid
        subst hfy
        rw [if_neg hid2]
        intro hc
        simp only [Bool.and_eq_true, beq_iff_eq, decide_eq_true_eq] at hc
        have hyid : y.id = r.id := huniq y hy r hmem (by rw [hc.1.1, htok])
        rw [Bool.not_eq_true, beq_eq_false_iff_ne] at hid2
        exact hid2 hyid
    rw [hfn]
  refine ⟨hok, ?_⟩
  rw [hst2]
  exact phpResetPassword_invalid_of_find_none phpHash tokenInput pw2 now2 _
    h1f hpw2a hpw2b hnone

/-- Witness for C2: a concrete successful redemption followed by a second
attempt with the same raw value, which fails with the unified InvalidToken
response and changes nothing. -/
theorem c2_redeem_single_use_witness :
    (phpResetPassword idDigest ("tkn123") "secret" 1
        ⟨[⟨1, "u@x", "U", "old"⟩], [⟨9, 1⟩], [⟨1, 1, "tkn123", 10, none⟩]⟩).1.status = 200 ∧
    phpResetPassword idDigest ("tkn123") "secret2" 2
        (phpResetPassword idDigest ("tkn123") "secret" 1
          ⟨[⟨1, "u@x", "U", "old"⟩], [⟨9, 1⟩], [⟨1, 1, "tkn123", 10, none⟩]⟩).2 =
      (⟨400, resetMsgInvalid⟩,
        (phpResetPassword idDigest ("tkn123") "secret" 1
          ⟨[⟨1, "u@x", "U", "old"⟩], [⟨9, 1⟩], [⟨1, 1, "tkn123", 10, none⟩]⟩).2) :=
  c2_redeem_single_use idDigest ("tkn123") "secret" "secret2" 1 2
    ⟨[⟨1, "u@x", "U", "old"⟩], [⟨9, 1⟩], [⟨1, 1, "tkn123", 10, none⟩]⟩
    ⟨1, 1, "tkn123", 10, none⟩ ⟨1, "u@x", "U", "old"⟩
    (by decide) (by decide) (by decide) (by decide) (by decide) (by decide) (by decide)

/-- C4 (amended): in the confirm edge function the bound side effect (the
cross-service credential update) is performed before the token is marked
consumed.  If the side effect fails, the 500 error is surfaced and the state
is returned unchanged, so the token is still unconsumed and redeemable; only
when the side effect succeeds is used_at set. -/
theorem c4_side_effect_precedes_consumption
    (hashToken : String → String) (t p : String) (now : Nat)
    (st : CloudState) (r : ResetTokenRow)
    (ht : ¬ t = "") (hpe : ¬ p = "") (hp6 : ¬ p.length < 6)
    (hlook : confirmLookup hashToken t now st = Except.ok r) :
    passwordResetConfirm hashToken (some t) (some p) now false st =
      (⟨500, confirmBackendFailBody⟩, st) ∧
    passwordResetConfirm hashToken (some t) (some p) now true st =
      (⟨200, confirmOkBody⟩,
        ⟨st.reset_tokens.map
            (fun x => if x.id == r.id then { x with used_at := some now } else x),
          st.profiles⟩) := by
  constructor <;> simp [passwordResetConfirm, confirmCommit, ht, hpe, hp6, hlook]

/-- Witness for C4 at a concrete valid token whose backend update fails:
the error is surfaced and the state, including used_at, is unchanged. -/
theorem c4_side_effect_precedes_consumption_witness :
    passwordResetConfirm idDigest (some ("T")) (some ("hunter2x")) 5 false
        ⟨[⟨1, 1, "T", 10, none⟩], [⟨1, "u@x", "U"⟩]⟩ =
      (⟨500, confirmBackendFailBody⟩,
        ⟨[⟨1, 1, "T", 10, none⟩], [⟨1, "u@x", "U"⟩]⟩) :=
  (c4_side_effect_precedes_consumption idDigest ("T") "hunter2x" 5
    ⟨[⟨1, 1, "T", 10, none⟩], [⟨1, "u@x", "U"⟩]⟩ ⟨1, 1, "T", 10, none⟩
    (by decide) (by decide) (by decide) rfl).1

/-- C5 (amended): the PHP redeem endpoint collapses token-not-found, token
expired and token already consumed into the single unified InvalidToken
response (all three causes make the conditional SQL lookup come back
empty), while the edge-function redeem endpoint carries pairwise distinct
bodies for its three failure causes. -/
theorem c5_php_unified_invalid_token
    (phpHash : String → String) (tokenInput pw : String) (now : Nat) (st : PhpState)
    (h1 : phpEmpty (phpTrim tokenInput) = false)
    (h2 : phpEmpty pw = false) (h3 : ¬ pw.length < 6)
    (hfind : phpFindValidRow st (phpTrim tokenInput) now = none) :
    phpResetPassword phpHash tokenInput pw now st = (⟨400, resetMsgInvalid⟩, st) ∧
    confirmNotFoundBody ≠ confirmUsedBody ∧
    confirmNotFoundBody ≠ confirmExpiredBody ∧
    confirmUsedBody ≠ confirmExpiredBody :=
  ⟨phpResetPassword_invalid_of_find_none phpHash tokenInput pw now st h1 h2 h3 hfind,
    by decide, by decide, by decide⟩

/-- Witness for C5 at a concrete expired token: the PHP endpoint returns
the unified InvalidToken response and leaves the state unchanged. -/
theorem c5_php_unified_invalid_token_witness :
    phpResetPassword idDigest ("tok123") "secret9" 5
        ⟨[⟨1, "u@x", "U", "h"⟩], [], [⟨1, 1, "tok123", 3, none⟩]⟩ =
      (⟨400, resetMsgInvalid⟩,
        ⟨[⟨1, "u@x", "U", "h"⟩], [], [⟨1, 1, "tok123", 3, none⟩]⟩) :=
  (c5_php_unified_invalid_token idDigest ("tok123") "secret9" 5
    ⟨[⟨1, "u@x", "U", "h"⟩], [], [⟨1, 1, "tok123", 3, none⟩]⟩
    (by decide) (by decide) (by decide) (by decide)).1

/-- C6 (amended): the edge-function issuance inserts a row whose token_hash
field is the digest of the raw secret, whereas the PHP issuance inserts a
row whose token field is the raw secret itself. -/
theorem c6_digest_vs_raw_storage
    (hashToken : String → String) (validEmail : String → Bool)
    (e o raw : String) (fid now : Nat) (smtpOk emailOk : Bool)
    (eraw : String) (pfid pnow : Nat) (pSent : Bool) (pErr : Option String) (pProd : Bool)
    (cst : CloudState) (pst : PhpState) (profile : ProfileRow) (u : MyUser)
    (he : ¬ e = "") (ho : ¬ o = "")
    (hprof : cst.profiles.find? (fun p => p.email == e) = some profile)
    (hnocoll : (cst.reset_tokens.filter (fun r => r.user_id != profile.id)).any
        (fun r => r.token_hash == hashToken raw) = false)
    (hpemail : phpEmpty (phpTrim eraw) = false)
    (hpvalid : validEmail (phpTrim eraw) = true)
    (hpuser : pst.users.find? (fun w => w.email == phpTrim eraw) = some u) :
    (passwordResetRequest hashToken (some e) (some o) raw fid now smtpOk emailOk
        cst).2.reset_tokens =
      cst.reset_tokens.filter (fun r => r.user_id != profile.id) ++
        [⟨fid, profile.id, hashToken raw, now + 3600000, none⟩] ∧
    (phpForgotPassword validEmail eraw o raw pfid pnow pSent pErr pProd
        pst).2.reset_tokens =
      pst.reset_tokens.filter (fun r => r.user_id != u.id) ++
        [⟨pfid, u.id, raw, pnow + 3600, none⟩] := by
  constructor
  · cases smtpOk <;> cases emailOk <;>
      simp [passwordResetRequest, he, ho, hprof, hnocoll]
  · cases pProd <;>
      simp [phpForgotPassword, hpemail, hpvalid, hpuser]

/-- Witness for C6 at concrete issuance runs of both backends: the stored
edge-function row carries the digest while the stored PHP row carries the
raw secret. -/
theorem c6_digest_vs_raw_storage_witness :
    (passwordResetRequest idDigest (some ("u@x")) (some ("https://app")) "R1" 7 50
        true true ⟨[], [⟨1, "u@x", "U"⟩]⟩).2.reset_tokens =
      [⟨7, 1, "R1", 3600050, none⟩] ∧
    (phpForgotPassword (fun _ => true) "w@x" "https://app" "R1" 8 60 true none false
        ⟨[⟨2, "w@x", "W", "h"⟩], [], []⟩).2.reset_tokens =
      [⟨8, 2, "R1", 3660, none⟩] :=
  c6_digest_vs_raw_storage idDigest (fun _ => true) "u@x" "https://app" "R1" 7 50
    true true ("w@x") 8 60 true none false ⟨[], [⟨1, "u@x", "U"⟩]⟩
    ⟨[⟨2, "w@x", "W", "h"⟩], [], []⟩ ⟨1, "u@x", "U"⟩ ⟨2, "w@x", "W", "h"⟩
    (by decide) (by decide) (by decide) (by decide) (by decide) (by decide) (by decide)

/-- When no stored digest matches the presented value, the read phase of the
confirm edge function answers with the not-found InvalidToken error. -/
theorem confirmLookup_not_found (hashToken : String → String) (tok : String)
    (now : Nat) (st : CloudState)
    (hnone : st.reset_tokens.find? (fun r => r.token_hash == hashToken tok) = none) :
    confirmLookup hashToken tok now st = Except.error ⟨400, confirmNotFoundBody⟩ := by
  unfold confirmLookup
  rw [hnone]

/-- C7 (amended): password-reset issuance deletes all prior reset tokens of
the subject before inserting the fresh one, so afterwards exactly one token
of the subject is stored and redeeming the earlier raw token fails with the
not-found InvalidToken error even if it has not expired; invite issuance,
by contrast, inserts a new token without removing any existing invite
token. -/
theorem c7_reset_reissue_supersedes
    (hashToken : String → String) (e o raw1 raw2 : String) (fid now later : Nat)
    (smtpOk emailOk : Bool) (st : CloudState) (profile : ProfileRow)
    (he : ¬ e = "") (ho : ¬ o = "")
    (hprof : st.profiles.find? (fun p => p.email == e) = some profile)
    (hnocoll : (st.reset_tokens.filter (fun r => r.user_id != profile.id)).any
        (fun r => r.token_hash == hashToken raw2) = false)
    (howner : ∀ x ∈ st.reset_tokens,
      x.token_hash = hashToken raw1 → x.user_id = profile.id)
    (hneq : hashToken raw1 ≠ hashToken raw2) :
    (passwordResetRequest hashToken (some e) (some o) raw2 fid now smtpOk emailOk st).2 =
      ⟨st.reset_tokens.filter (fun r => r.user_id != profile.id) ++
          [⟨fid, profile.id, hashToken raw2, now + 3600000, none⟩], st.profiles⟩ ∧
    ((passwordResetRequest hashToken (some e) (some o) raw2 fid now smtpOk emailOk
        st).2.reset_tokens.filter (fun r => r.user_id == profile.id)).length = 1 ∧
    confirmLookup hashToken raw1 later
        (passwordResetRequest hashToken (some e) (some o) raw2 fid now smtpOk emailOk st).2 =
      Except.error ⟨400, confirmNotFoundBody⟩ ∧
    (∀ (origin firmId em ty : String) (uid : Option Nat) (nid : Nat) (ftok : String)
        (ast : AppState) (x : InviteTokenRow), x ∈ ast.invite_tokens →
        x ∈ (handleInvite origin firmId em ty uid nid ftok ast).2.invite_tokens) := by
  have hst : (passwordResetRequest hashToken (some e) (some o) raw2 fid now smtpOk
      emailOk st).2 =
      ⟨st.reset_tokens.filter (fun r => r.user_id != profile.id) ++
        [⟨fid, profile.id, hashToken raw2, now + 3600000, none⟩], st.profiles⟩ := by
    cases smtpOk <;> cases emailOk <;>
      simp [passwordResetRequest, he, ho, hprof, hnocoll]
  refine ⟨hst, ?_, ?_, ?_⟩
  · rw [hst]
    have hleft : (st.reset_tokens.filter (fun r => r.user_id != profile.id)).filter
        (fun r => r.user_id == profile.id) = [] := by
      rw [List.filter_eq_nil_iff]
      intro a ha
      rw [List.mem_filter] at ha
      have hne := ha.2
      simp only [bne_iff_ne, ne_eq] at hne
      simp [hne]
    simp [List.filter_append, hleft]
  · rw [hst]
    have hfn : ((st.reset_tokens.filter (fun r => r.user_id != profile.id) ++
        [(⟨fid, profile.id, hashToken raw2, now + 3600000, none⟩ : ResetTokenRow)]).find?
        (fun r => r.token_hash == hashToken raw1)) = none := by
      rw [List.find?_eq_none]
      intro x hx
      rw [List.mem_append] at hx
      intro hc
      rw [beq_iff_eq] at hc
      rcases hx with hx | hx
      · rw [List.mem_filter] at hx
        have hxid := howner x hx.1 hc
        have hne := hx.2
        simp only [bne_iff_ne, ne_eq] at hne
        exact hne hxid
      · rw [List.mem_singleton] at hx
        subst hx
        exact hneq (hc.symm)
    exact confirmLookup_not_found hashToken raw1 later _ hfn
  · intro origin firmId em ty uid nid ftok ast x hxmem
    rcases uid with _ | w
    · simpa [handleInvite] using hxmem
    · by_cases hfe : firmId = ""
      · simpa [handleInvite, hfe] using hxmem
      · by_cases hee : em = ""
        · simpa [handleInvite, hfe, hee] using hxmem
        · simp [handleInvite, hfe, hee]
          exact Or.inl hxmem

/-- Witness for C7: a concrete second issuance over a store holding the
earlier token, after which only the fresh token remains. -/
theorem c7_reset_reissue_supersedes_witness :
    (passwordResetRequest idDigest (some ("u@x")) (some ("https://app")) "R2" 7 50
        true true ⟨[⟨3, 1, "R1", 999, none⟩], [⟨1, "u@x", "U"⟩]⟩).2 =
      ⟨[⟨7, 1, "R2", 3600050, none⟩], [⟨1, "u@x", "U"⟩]⟩ :=
  (c7_reset_reissue_supersedes idDigest ("u@x") "https://app" "R1" "R2" 7 50 60
    true true ⟨[⟨3, 1, "R1", 999, none⟩], [⟨1, "u@x", "U"⟩]⟩ ⟨1, "u@x", "U"⟩
    (by decide) (by decide) (by decide) (by decide) (by decide) (by decide)).1

/-- C8 (amended): the edge-function issuance returns the identical success
response for an existing and for a non-existent email (when delivery
succeeds) and performs no insert for the non-existent one; the PHP issuance
also reports success and performs no insert for a non-existent email,
though its shape differs from the existing-email case. -/
theorem c8_enumeration_resistance
    (hashToken : String → String) (validEmail : String → Bool)
    (e1 e2 o raw g : String) (fid now : Nat) (st : CloudState)
    (profile : ProfileRow) (pst : PhpState) (pfid pnow : Nat)
    (he1 : ¬ e1 = "") (he2 : ¬ e2 = "") (ho : ¬ o = "")
    (hp1 : st.profiles.find? (fun p => p.email == e1) = some profile)
    (hp2 : st.profiles.find? (fun p => p.email == e2) = none)
    (hnocoll : (st.reset_tokens.filter (fun r => r.user_id != profile.id)).any
        (fun r => r.token_hash == hashToken raw) = false)
    (hge : phpEmpty (phpTrim g) = false) (hgv : validEmail (phpTrim g) = true)
    (hgu : pst.users.find? (fun w => w.email == phpTrim g) = none) :
    (passwordResetRequest hashToken (some e1) (some o) raw fid now true true st).1 =
      (passwordResetRequest hashToken (some e2) (some o) raw fid now true true st).1 ∧
    (passwordResetRequest hashToken (some e2) (some o) raw fid now true true st).2 = st ∧
    (phpForgotPassword validEmail g o raw pfid pnow true none true pst).1.success = true ∧
    (phpForgotPassword validEmail g o raw pfid pnow true none true pst).2 = pst := by
  refine ⟨?_, ?_, ?_, ?_⟩
  · simp [passwordResetRequest, he1, he2, ho, hp1, hp2, hnocoll]
  · simp [passwordResetRequest, he2, ho, hp2]
  · simp [phpForgotPassword, hge, hgv, hgu]
  · simp [phpForgotPassword, hge, hgv, hgu]

/-- Witness for C8 at concrete states: an existing and a non-existent email
produce the same edge-function response. -/
theorem c8_enumeration_resistance_witness :
    (passwordResetRequest idDigest (some ("u@x")) (some ("https://app")) "R" 7 50
        true true ⟨[], [⟨1, "u@x", "U"⟩]⟩).1 =
      (passwordResetRequest idDigest (some ("ghost@x")) (some ("https://app")) "R" 7 50
        true true ⟨[], [⟨1, "u@x", "U"⟩]⟩).1 :=
  (c8_enumeration_resistance idDigest (fun _ => true) "u@x" "ghost@x" "https://app"
    "R" "g@x" 7 50 ⟨[], [⟨1, "u@x", "U"⟩]⟩ ⟨1, "u@x", "U"⟩ ⟨[], [], []⟩ 8 60
    (by decide) (by decide) (by decide) (by decide) (by decide) (by decide)
    (by decide) (by decide) (by decide)).1

/-- C9 (amended): both PHP-backed password-reset redemption paths delete
every session of the subject after the credential overwrite, so the subject
is left with zero sessions; the admin-API confirm variant never touches the
session store, and invite redemption never touches the session store
either. -/
theorem c9_session_revocation_by_variant
    (phpHash : String → String) (tokenInput pw e pw2 key : String) (now : Nat)
    (pst pst2 : PhpState) (r : PhpResetRow) (u u2 : MyUser)
    (h1 : phpEmpty (phpTrim tokenInput) = false) (h2 : phpEmpty pw = false)
    (h3 : ¬ pw.length < 6)
    (hfind : phpFindValidRow pst (phpTrim tokenInput) now = some (r, u))
    (g1 : phpEmpty (phpTrim e) = false) (g2 : phpEmpty pw2 = false)
    (g3 : ¬ pw2.length < 6)
    (gfind : pst2.users.find? (fun w => w.email == phpTrim e) = some u2) :
    ((phpResetPassword phpHash tokenInput pw now pst).1.status = 200 ∧
      ∀ s ∈ (phpResetPassword phpHash tokenInput pw now pst).2.sessions,
        s.user_id ≠ r.user_id) ∧
    ((updatePasswordPhp phpHash e pw2 key key pst2).1.status = 200 ∧
      ∀ s ∈ (updatePasswordPhp phpHash e pw2 key key pst2).2.sessions,
        s.user_id ≠ u2.id) ∧
    (∀ (hsh : String → String) (tk pw3 : Option String) (n : Nat)
        (cst : CloudAuthState),
        (passwordResetConfirmAdmin hsh tk pw3 n cst).2.sessions = cst.sessions) ∧
    (∀ (ve : String → Bool) (tp rp fp : Option String) (em pw4 fn cn : String)
        (sOk : Bool) (nid : Nat) (ast : AppState),
        (inviteRedeem ve tp rp fp em pw4 fn cn sOk nid ast).2.sessions =
          ast.sessions) := by
  refine ⟨⟨?_, ?_⟩, ⟨?_, ?_⟩, ?_, ?_⟩
  · simp [phpResetPassword, h1, h2, h3, hfind]
  · intro s hs
    simp [phpResetPassword, h1, h2, h3, hfind] at hs
    exact hs.2
  · simp [updatePasswordPhp, g1, g2, g3, gfind]
  · intro s hs
    simp [updatePasswordPhp, g1, g2, g3, gfind] at hs
    exact hs.2
  · intro hsh tk pw3 n cst
    unfold passwordResetConfirmAdmin
    repeat' split
    all_goals rfl
  · intro ve tp rp fp em pw4 fn cn sOk nid ast
    unfold inviteRedeem
    repeat' split
    all_goals rfl

/-- Witness for C9: concrete successful runs of both PHP-backed paths. -/
theorem c9_session_revocation_by_variant_witness :
    (phpResetPassword idDigest ("tkn123") "secret" 1
        ⟨[⟨1, "u@x", "U", "old"⟩], [⟨9, 1⟩], [⟨1, 1, "tkn123", 10, none⟩]⟩).1.status
      = 200 ∧
    (updatePasswordPhp idDigest ("w@x") "secret2" "k" "k"
        ⟨[⟨2, "w@x", "W", "old"⟩], [⟨11, 2⟩], []⟩).1.status = 200 :=
  ⟨(c9_session_revocation_by_variant idDigest ("tkn123") "secret" "w@x" "secret2" "k" 1
      ⟨[⟨1, "u@x", "U", "old"⟩], [⟨9, 1⟩], [⟨1, 1, "tkn123", 10, none⟩]⟩
      ⟨[⟨2, "w@x", "W", "old"⟩], [⟨11, 2⟩], []⟩ ⟨1, 1, "tkn123", 10, none⟩
      ⟨1, "u@x", "U", "old"⟩ ⟨2, "w@x", "W", "old"⟩
      (by decide) (by decide) (by decide) (by decide) (by decide) (by decide)
      (by decide) (by decide)).1.1,
    (c9_session_revocation_by_variant idDigest ("tkn123") "secret" "w@x" "secret2" "k" 1
      ⟨[⟨1, "u@x", "U", "old"⟩], [⟨9, 1⟩], [⟨1, 1, "tkn123", 10, none⟩]⟩
      ⟨[⟨2, "w@x", "W", "old"⟩], [⟨11, 2⟩], []⟩ ⟨1, 1, "tkn123", 10, none⟩
      ⟨1, "u@x", "U", "old"⟩ ⟨2, "w@x", "W", "old"⟩
      (by decide) (by decide) (by decide) (by decide) (by decide) (by decide)
      (by decide) (by decide)).2.1.1⟩

end LedgerLink
